import Mathlib

/-!
Shallow embedding of the LLM proxy client core (`src/py/llmproxy/main.py`)
and proofs about its retry, error-normalization, payload-construction and
configuration behaviour.

Python values that can travel in a JSON payload or come back in a response
body are modelled by `JsonValue`.  Python `dict`s are modelled as chains of
`objCons` cells (insertion-ordered, as Python dicts are).  Python `int` and
`float` are kept distinct, as they are in Python; floats are modelled as
rationals.

The HTTP transport is modelled by a function from the attempt index to the
outcome of that attempt (a response, or a raised `requests` exception), so
that the retry behaviour of the session built by `_build_session` becomes an
explicit, executable loop and the number of attempts is observable.
-/

/-- Model of a Python value that can appear in a JSON payload or in a parsed
response body: `None`, `bool`, `int`, `float`, `str`, or a `dict` encoded as
a chain of `objCons` cells ending in `objNil`. -/
inductive JsonValue where
  | null
  | bool (b : Bool)
  | int (n : Int)
  | float (q : ℚ)
  | str (s : String)
  | objNil
  | objCons (key : String) (value : JsonValue) (rest : JsonValue)
deriving DecidableEq, Repr

/-- Build a `dict` value from an association list. -/
def JsonValue.objOf : List (String × JsonValue) → JsonValue
  | [] => .objNil
  | (k, v) :: rest => .objCons k v (objOf rest)

/-- Whether the value is a Python `dict` (the only values on which `.get`
is defined among those modelled here). -/
def JsonValue.isDict : JsonValue → Bool
  | .objNil => true
  | .objCons _ _ _ => true
  | _ => false

/-- Python `d.get(key)` on a dict value: the value bound to `key`, if any. -/
def JsonValue.dictGet : JsonValue → String → Option JsonValue
  | .objCons k v rest, key => if k = key then some v else rest.dictGet key
  | _, _ => none

/-- Python `key in d` for a dict value. -/
def JsonValue.hasKey : JsonValue → String → Bool
  | .objCons k _ rest, key => k = key || rest.hasKey key
  | _, _ => false

/-- Whether `needle` occurs as a substring of `hay` (Python `needle in hay`
for strings). -/
def strContains (hay needle : String) : Bool :=
  (hay.splitOn needle).length > 1

/-- Python `str(v)`, as used when a value is interpolated into an f-string.
Only the scalar cases are ever exercised by the client code paths modelled
here; the dict rendering is a faithful-in-shape stand-in. -/
def JsonValue.pyStr : JsonValue → String
  | .null => "None"
  | .bool true => "True"
  | .bool false => "False"
  | .int n => toString n
  | .float q => toString q
  | .str s => s
  | .objNil => "\x7b\x7d"
  | .objCons k v rest => "\x7b" ++ k ++ ": " ++ v.pyStr ++ "; " ++ rest.pyStr ++ "\x7d"

/-- Model of an HTTP response as observed through the `requests` response
object: the status code, `resp.text`, and the outcome of `resp.json()`
(`none` models the `ValueError` raised on a body that is not valid JSON;
`some j` models a successful parse producing `j`). -/
structure HttpResponse where
  status : Nat
  text : String
  jsonBody : Option JsonValue
deriving DecidableEq, Repr

/-- Outcome of a single low-level connection attempt made by the pooled
session: either an HTTP response was received, or the attempt failed at the
transport level (DNS failure, connection refused, timeout, ...) with a
`requests.exceptions.RequestException` carrying the given description. -/
inductive AttemptOutcome where
  | resp (r : HttpResponse)
  | raise (desc : String)
deriving DecidableEq, Repr

/-- A simulated transport: the outcome of the `k`-th attempt (0-based). -/
def Transport : Type := Nat → AttemptOutcome

/-- Outcome of `session.post` as a whole: a response delivered to the
caller, or a `requests.exceptions.RequestException` raised after the retry
budget was exhausted on transport-level errors. -/
inductive PostOutcome where
  | resp (r : HttpResponse)
  | raised (desc : String)
deriving DecidableEq, Repr

/-- Model of the `urllib3.util.retry.Retry` configuration built by
`_build_session`. -/
structure RetryPolicy where
  total : Nat
  backoff_factor : ℚ
  status_forcelist : List Nat
  allowed_methods : List String
  raise_on_status : Bool
deriving DecidableEq, Repr

/-- The retry configuration of `_build_session`:
`Retry(total=3, backoff_factor=0.5, status_forcelist=(429, 500, 502, 503, 504),
allowed_methods=frozenset(["POST"]), raise_on_status=False)`. -/
def buildSessionRetry : RetryPolicy :=
  { total := 3
    backoff_factor := 1/2
    status_forcelist := [429, 500, 502, 503, 504]
    allowed_methods := ["POST"]
    raise_on_status := false }

/-- urllib3 `Retry.is_retry` for a received response: the method must be in
`allowed_methods` and the status in `status_forcelist`. -/
def RetryPolicy.is_retry (p : RetryPolicy) (method : String) (status : Nat) : Bool :=
  p.allowed_methods.contains method && p.status_forcelist.contains status

/-- The urllib3 retry loop, specialised to this client (every request is a
POST).  `budget` is the current value of the `total` counter; urllib3
decrements it on every retried outcome and gives up when it would become
negative.  On exhaustion by retryable statuses the last response is returned
(`raise_on_status=False`); on exhaustion by transport errors the last error
is raised.  A non-retryable response is returned at once.  Returns the
number of attempts made together with the outcome. -/
def retryLoopAux (p : RetryPolicy) (t : Transport) : Nat → Nat → Nat × PostOutcome
  | budget, k =>
    match t k with
    | .raise d =>
      match budget with
      | 0 => (k + 1, .raised d)
      | b + 1 => retryLoopAux p t b (k + 1)
    | .resp r =>
      if p.is_retry "POST" r.status then
        match budget with
        | 0 => (k + 1, .resp r)
        | b + 1 => retryLoopAux p t b (k + 1)
      else (k + 1, .resp r)

/-- Model of `session.post(...)` for the session built by `_build_session`:
run the retry loop from attempt 0 with the configured total. -/
def sessionPost (p : RetryPolicy) (t : Transport) : Nat × PostOutcome :=
  retryLoopAux p t p.total 0

/-- urllib3 backoff sleep before the retry whose 1-based index is `i`
(`get_backoff_time`): zero before the first retry, then
`backoff_factor * 2 ^ (i - 1)`. -/
def backoffTime (p : RetryPolicy) (i : Nat) : ℚ :=
  if i ≤ 1 then 0 else p.backoff_factor * 2 ^ (i - 1)

/-- Immutable client configuration (`@dataclass(frozen=True) class
ClientConfig`), with the compiled-in default timeout of 118 seconds. -/
structure ClientConfig where
  endpoint : String
  api_key : String
  timeout : ℚ
deriving DecidableEq, Repr

/-- The default of the `timeout` field of `ClientConfig`. -/
def ClientConfig.timeout_default : ℚ := 118

/-- The configuration source visible to `ClientConfig.from_env`: the values
of `LLMPROXY_ENDPOINT` and `LLMPROXY_API_KEY` after loading the env file
(`none` models an unset variable). -/
structure Env where
  endpoint : Option String
  api_key : Option String
deriving DecidableEq, Repr

/-- Python truthiness of `os.getenv`-style results: `None` and the empty
string are falsy, every other string is truthy. -/
def pyTruthy : Option String → Bool
  | none => false
  | some s => s ≠ ""

/-- The message of the `ValueError` raised by `ClientConfig.from_env` when
the configuration is missing. -/
def configErrorMessage : String :=
  "LLMProxy configuration error:\n" ++
  "Missing LLMPROXY_ENDPOINT or LLMPROXY_API_KEY.\n\n" ++
  "Make sure your .env file is in the SAME DIRECTORY where you run python.\n" ++
  "\nExample .env:\n" ++
  "    LLMPROXY_ENDPOINT=https://your-endpoint\n" ++
  "    LLMPROXY_API_KEY=your-api-key\n"

/-- Model of `ClientConfig.from_env`: raises (`Except.error`) when either
variable is missing or empty (`if not endpoint or not api_key`), otherwise
returns the configuration with the default timeout. -/
def ClientConfig.from_env (env : Env) : Except String ClientConfig :=
  if !pyTruthy env.endpoint || !pyTruthy env.api_key then
    .error configErrorMessage
  else
    .ok { endpoint := (env.endpoint).getD ""
          api_key := (env.api_key).getD ""
          timeout := ClientConfig.timeout_default }

/-- The client object: its configuration and the retry policy of the session
built once in `__init__`. -/
structure LLMProxy where
  config : ClientConfig
  session : RetryPolicy
deriving DecidableEq, Repr

/-- Model of `LLMProxy.__init__`: load the configuration from the
environment (propagating the configuration error) and build the session. -/
def LLMProxy.init (env : Env) : Except String LLMProxy :=
  (ClientConfig.from_env env).map (fun cfg => ⟨cfg, buildSessionRetry⟩)

/-- Python `dict.update` on an insertion-ordered association list: existing
keys are overwritten in place, new keys are appended. -/
def dictUpdate (base extra : List (String × String)) : List (String × String) :=
  extra.foldl
    (fun acc kv =>
      if acc.any (fun e => e.1 = kv.1) then
        acc.map (fun e => if e.1 = kv.1 then kv else e)
      else acc ++ [kv])
    base

/-- Model of `LLMProxy._headers`: the two base headers, updated with the
optional extras. -/
def LLMProxy.headersOf (self : LLMProxy) (request_type : String)
    (extra : Option (List (String × String))) : List (String × String) :=
  let base := [("x-api-key", self.config.api_key), ("request_type", request_type)]
  match extra with
  | none => base
  | some ex => dictUpdate base ex

/-- The value an operation hands back to the caller: a returned Python value
(`ret`), or an uncaught Python exception of the named class (`exn`). -/
inductive PyResult where
  | ret (v : JsonValue)
  | exn (name : String)
deriving DecidableEq, Repr

/-- The error envelope for a transport-level failure:
`{"error": f"Network error: {e}", "status_code": None}`. -/
def networkErrorEnvelope (desc : String) : JsonValue :=
  .objOf [("error", .str ("Network error: " ++ desc)), ("status_code", .null)]

/-- The error envelope for a 2xx response whose body is not valid JSON:
`{"error": "Invalid JSON in response", "status_code": resp.status_code}`. -/
def invalidJsonEnvelope (status : Nat) : JsonValue :=
  .objOf [("error", .str "Invalid JSON in response"), ("status_code", .int status)]

/-- The error envelope for a non-2xx response:
`{"error": f"HTTP {resp.status_code}: {detail}", "status_code": resp.status_code}`. -/
def httpErrorEnvelope (status : Nat) (detail : String) : JsonValue :=
  .objOf [("error", .str ("HTTP " ++ toString status ++ ": " ++ detail)),
          ("status_code", .int status)]

/-- Evaluation of `detail = resp.json().get("error", resp.text)` inside a
`try ... except ValueError` that falls back to `detail = resp.text`:
if the body is not valid JSON the `ValueError` is caught and the raw text is
used; if it parses to a dict, the `error` entry is used when present
(interpolated through `str`), the raw text otherwise; if it parses to a
non-dict value, `.get` raises an `AttributeError`, which no handler
catches. -/
def errorDetail (r : HttpResponse) : Except String String :=
  match r.jsonBody with
  | none => .ok r.text
  | some j =>
    if j.isDict then
      match j.dictGet "error" with
      | some v => .ok v.pyStr
      | none => .ok r.text
    else .error "AttributeError"

/-- The shared response-normalization logic of `_post_json`, `upload_file`
and `upload_text` for the cases in which `session.post` ran: a raised
transport exception becomes the network-error envelope; a 2xx response is
the parsed body, or on a JSON parse failure either the invalid-JSON
envelope (`_post_json`) or `{"message": resp.text}` (the upload methods),
selected by `uploadStyle`; a non-2xx response becomes the HTTP error
envelope built from `errorDetail` (or propagates its `AttributeError`). -/
def normalizeOutcome (uploadStyle : Bool) : PostOutcome → PyResult
  | .raised d => .ret (networkErrorEnvelope d)
  | .resp r =>
    if 200 ≤ r.status ∧ r.status < 300 then
      match r.jsonBody with
      | some j => .ret j
      | none =>
        if uploadStyle then .ret (.objOf [("message", .str r.text)])
        else .ret (invalidJsonEnvelope r.status)
    else
      match errorDetail r with
      | .ok detail => .ret (httpErrorEnvelope r.status detail)
      | .error e => .exn e

/-- Observable trace of one `_post_json` call: the headers and JSON body it
transmitted, how many attempts the session made, and the value returned to
the caller (or the exception that escaped). -/
structure PostTrace where
  sentHeaders : List (String × String)
  sentBody : List (String × JsonValue)
  attempts : Nat
  result : PyResult
deriving DecidableEq, Repr

/-- Model of `LLMProxy._post_json`: drop the `None`-valued entries from the
payload (`clean_payload`), post with the two standard headers, and
normalize the outcome (non-upload style). -/
def LLMProxy.post_json (self : LLMProxy) (t : Transport) (request_type : String)
    (payload : List (String × Option JsonValue)) : PostTrace :=
  let clean_payload := payload.filterMap (fun kv => kv.2.map (fun v => (kv.1, v)))
  let headers := self.headersOf request_type none
  let out := sessionPost self.session t
  { sentHeaders := headers
    sentBody := clean_payload
    attempts := out.1
    result := normalizeOutcome false out.2 }

/-- Model of `LLMProxy.retrieve`: all four fields are always present in the
payload. -/
def LLMProxy.retrieve (self : LLMProxy) (t : Transport)
    (query : String) (session_id : String) (rag_threshold : ℚ) (rag_k : Int) :
    PostTrace :=
  self.post_json t "retrieve"
    [("query", some (.str query)),
     ("session_id", some (.str session_id)),
     ("rag_threshold", some (.float rag_threshold)),
     ("rag_k", some (.int rag_k))]

/-- Model of `LLMProxy.model_info`: empty payload. -/
def LLMProxy.model_info (self : LLMProxy) (t : Transport) : PostTrace :=
  self.post_json t "model_info" {}

/-- Python defaults of the optional parameters of `generate`. -/
def generateDefault_temperature : Option ℚ := none

/-- Python default of `lastk`. -/
def generateDefault_lastk : Option Int := none

/-- Python default of `session_id` in `generate`. -/
def generateDefault_session_id : Option String := some "GenericSession"

/-- Python default of `rag_threshold` in `generate`. -/
def generateDefault_rag_threshold : Option ℚ := some (1/2)

/-- Python default of `rag_usage` in `generate`. -/
def generateDefault_rag_usage : Option Bool := some false

/-- Python default of `rag_k` in `generate`. -/
def generateDefault_rag_k : Option Int := some 5

/-- Python `"error" in res` on the value returned by `_post_json`: key
membership for a dict, substring test for a string, and a `TypeError` for
the other modelled values. -/
def pyContainsError : JsonValue → Except String Bool
  | .str s => .ok (strContains s "error")
  | .objNil => .ok false
  | .objCons k v rest => .ok ((JsonValue.objCons k v rest).hasKey "error")
  | _ => .error "TypeError"

/-- The `if "error" in res: return res / return res` epilogue of `generate`:
both branches return the `_post_json` result unchanged, so its only
observable effect is the `TypeError` raised by the membership test when the
server returned a 2xx body that is neither a dict nor a string. -/
def generateEpilogue (res : PostTrace) : PostTrace :=
  match res.result with
  | .ret v =>
    match pyContainsError v with
    | .ok _ => res
    | .error e => { res with result := .exn e }
  | .exn _ => res

/-- The payload dict built by `LLMProxy.generate` (optional fields carry
their argument, which may be `None`). -/
def generatePayload (model : String) (system : String) (query : String)
    (temperature : Option ℚ) (lastk : Option Int)
    (session_id : Option String) (rag_threshold : Option ℚ)
    (rag_usage : Option Bool) (rag_k : Option Int) :
    List (String × Option JsonValue) :=
  [("model", some (.str model)),
   ("system", some (.str system)),
   ("query", some (.str query)),
   ("temperature", temperature.map .float),
   ("lastk", lastk.map .int),
   ("session_id", session_id.map .str),
   ("rag_threshold", rag_threshold.map .float),
   ("rag_usage", rag_usage.map .bool),
   ("rag_k", rag_k.map .int)]

/-- Model of `LLMProxy.generate`: build the nine-field payload, post it as a
`call` request, and run the epilogue. -/
def LLMProxy.generate (self : LLMProxy) (t : Transport)
    (model : String) (system : String) (query : String)
    (temperature : Option ℚ) (lastk : Option Int)
    (session_id : Option String) (rag_threshold : Option ℚ)
    (rag_usage : Option Bool) (rag_k : Option Int) : PostTrace :=
  generateEpilogue (self.post_json t "call"
    (generatePayload model system query temperature lastk session_id
      rag_threshold rag_usage rag_k))

/-- The local filesystem as seen by `upload_file`: which paths exist. -/
structure FileSystem where
  pathExists : String → Bool

/-- Split a character list on a separator character (the pieces between
occurrences of the separator, in order; at least one piece). -/
def splitOnChar (c : Char) : List Char → List (List Char)
  | [] => [[]]
  | x :: xs =>
    let rest := splitOnChar c xs
    if x = c then [] :: rest
    else
      match rest with
      | [] => [[x]]
      | y :: ys => (x :: y) :: ys

/-- The final path component, as `pathlib` would name it. -/
def pathFinalName (p : String) : String :=
  match ((splitOnChar (Char.ofNat 47) p.data).filter (fun s => s ≠ [])).reverse with
  | [] => p
  | last :: _ => ⟨last⟩

/-- Model of `pathlib.Path.suffix`: the final dot-led extension of the last
component, empty when the name has no dot, only a leading dot, or a
trailing dot. -/
def pathSuffix (p : String) : String :=
  match splitOnChar (Char.ofNat 46) (pathFinalName p).data with
  | [] => ""
  | [_] => ""
  | parts =>
    let last := parts.getLastD []
    if last = [] then ""
    else if parts.headD [Char.ofNat 120] = [] ∧ parts.length = 2 then ""
    else "." ++ (⟨last⟩ : String)

/-- Python `str.lower`, character by character. -/
def lowerString (s : String) : String := ⟨s.data.map Char.toLower⟩

/-- One part of the multipart `files` dict: the JSON-encoded `params`
object, an opened binary file stream, or raw text content. -/
inductive PartBody where
  | jsonParams (params : List (String × JsonValue))
  | fileStream (path : String)
  | textContent (s : String)
deriving DecidableEq, Repr

/-- Observable trace of an upload call: whether a request was transmitted at
all, and if so with which headers and multipart parts (each part also
carries its content type); plus the attempt count and result. -/
structure UploadTrace where
  requested : Bool
  sentHeaders : List (String × String)
  sentFiles : List (String × PartBody × String)
  attempts : Nat
  result : PyResult
deriving DecidableEq, Repr

/-- The `params` dict shared by `upload_file` and `upload_text`, with the
`None`-valued entries removed. -/
def uploadParams (description : Option String) (session_id : String)
    (strategy : Option String) : List (String × JsonValue) :=
  ([("description", description.map .str),
    ("session_id", some (.str session_id)),
    ("strategy", strategy.map .str)] :
      List (String × Option JsonValue)).filterMap
    (fun kv => kv.2.map (fun v => (kv.1, v)))

/-- Model of `LLMProxy.upload_file`: return the local `File not found`
envelope without touching the transport when the path does not exist;
otherwise infer the MIME type when none is given (`application/pdf` for a
`.pdf` suffix, `application/octet-stream` otherwise), build the multipart
body from the cleaned `params` and the opened file, post as an `add`
request and normalize the outcome (upload style). -/
def LLMProxy.upload_file (self : LLMProxy) (t : Transport) (fs : FileSystem)
    (file_path : String) (session_id : String) (mime_type : Option String)
    (description : Option String) (strategy : Option String) : UploadTrace :=
  if fs.pathExists file_path = false then
    { requested := false
      sentHeaders := []
      sentFiles := []
      attempts := 0
      result := .ret (.objOf
        [("error", .str ("File not found: " ++ file_path)),
         ("status_code", .null)]) }
  else
    let mt := match mime_type with
      | none =>
        if lowerString (pathSuffix file_path) = ".pdf" then "application/pdf"
        else "application/octet-stream"
      | some m => m
    let params := uploadParams description session_id strategy
    let files : List (String × PartBody × String) :=
      [("params", .jsonParams params, "application/json"),
       ("file", .fileStream file_path, mt)]
    let out := sessionPost self.session t
    { requested := true
      sentHeaders := self.headersOf "add" none
      sentFiles := files
      attempts := out.1
      result := normalizeOutcome true out.2 }

/-- Model of `LLMProxy.upload_text`: like `upload_file` but with no local
precondition and a `text` part carrying the raw text as
`application/text`. -/
def LLMProxy.upload_text (self : LLMProxy) (t : Transport)
    (text : String) (session_id : String)
    (description : Option String) (strategy : Option String) : UploadTrace :=
  let params := uploadParams description session_id strategy
  let files : List (String × PartBody × String) :=
    [("params", .jsonParams params, "application/json"),
     ("text", .textContent text, "application/text")]
  let out := sessionPost self.session t
  { requested := true
    sentHeaders := self.headersOf "add" none
    sentFiles := files
    attempts := out.1
    result := normalizeOutcome true out.2 }

/-- A method call viewed as a state transition on the client object: the
body of `generate` contains no assignment to `self.config` or
`self.session` (and `ClientConfig` is a frozen dataclass), so the post-call
object is the receiver itself. -/
def LLMProxy.generate_step (self : LLMProxy) (t : Transport)
    (model : String) (system : String) (query : String)
    (temperature : Option ℚ) (lastk : Option Int)
    (session_id : Option String) (rag_threshold : Option ℚ)
    (rag_usage : Option Bool) (rag_k : Option Int) : PostTrace × LLMProxy :=
  (self.generate t model system query temperature lastk session_id
    rag_threshold rag_usage rag_k, self)

/-- State-transition view of `retrieve` (no field of `self` is assigned). -/
def LLMProxy.retrieve_step (self : LLMProxy) (t : Transport)
    (query : String) (session_id : String) (rag_threshold : ℚ) (rag_k : Int) :
    PostTrace × LLMProxy :=
  (self.retrieve t query session_id rag_threshold rag_k, self)

/-- State-transition view of `model_info` (no field of `self` is
assigned). -/
def LLMProxy.model_info_step (self : LLMProxy) (t : Transport) :
    PostTrace × LLMProxy :=
  (self.model_info t, self)

/-- State-transition view of `upload_file` (no field of `self` is
assigned). -/
def LLMProxy.upload_file_step (self : LLMProxy) (t : Transport)
    (fs : FileSystem) (file_path : String) (session_id : String)
    (mime_type : Option String) (description : Option String)
    (strategy : Option String) : UploadTrace × LLMProxy :=
  (self.upload_file t fs file_path session_id mime_type description strategy,
   self)

/-- State-transition view of `upload_text` (no field of `self` is
assigned). -/
def LLMProxy.upload_text_step (self : LLMProxy) (t : Transport)
    (text : String) (session_id : String)
    (description : Option String) (strategy : Option String) :
    UploadTrace × LLMProxy :=
  (self.upload_text t text session_id description strategy, self)

/-- A transport whose every attempt has the same outcome. -/
def constTransport (o : AttemptOutcome) : Transport := fun _ => o

/-- A transport whose first two attempts yield `x` and whose later attempts
yield `y`. -/
def twoThenTransport (x y : AttemptOutcome) : Transport :=
  fun k => if k < 2 then x else y

/-- A concrete, fully configured client used to instantiate the theorems. -/
def client0 : LLMProxy :=
  ⟨{ endpoint := "https://proxy.example", api_key := "secret-key", timeout := 118 },
   buildSessionRetry⟩

/-- A transport that fails at the transport level on every attempt. -/
def tRaise : Transport := constTransport (.raise "connection refused")

/-- A transport that answers 503 with an empty unparsable body on every
attempt. -/
def tAll503 : Transport := constTransport (.resp ⟨503, "busy", none⟩)

/-- A transport that answers 503 twice and then 200 with a JSON body. -/
def t503x2then200 : Transport :=
  twoThenTransport (.resp ⟨503, "busy", none⟩)
    (.resp ⟨200, "ok", some (.objOf [("result", .str "hi")])⟩)

/-- A transport that answers 403 with the JSON body
`{"error": "invalid key"}` on every attempt. -/
def t403 : Transport :=
  constTransport (.resp ⟨403, "raw body", some (.objOf [("error", .str "invalid key")])⟩)

/-- A transport that answers 403 with the body `"no dict"`, which is valid
JSON but not a JSON object. -/
def t403NonDict : Transport :=
  constTransport (.resp ⟨403, "no dict", some (.str "no dict")⟩)

/-- A transport that answers 200 with the body `OK`, which is not valid
JSON. -/
def t200NotJson : Transport := constTransport (.resp ⟨200, "OK", none⟩)

/-- A filesystem on which every path exists. -/
def fsAll : FileSystem := ⟨fun _ => true⟩

/-- A filesystem on which no path exists. -/
def fsNone : FileSystem := ⟨fun _ => false⟩

/-- The retry loop returns at once when the current attempt raises and the
budget is exhausted. -/
theorem retryLoop_raise_zero (p : RetryPolicy) (t : Transport) (k : Nat) (d : String)
    (h : t k = .raise d) : retryLoopAux p t 0 k = (k + 1, .raised d) := by
  rw [retryLoopAux, h]

/-- The retry loop retries a raising attempt while budget remains. -/
theorem retryLoop_raise_step (p : RetryPolicy) (t : Transport) (b k : Nat) (d : String)
    (h : t k = .raise d) : retryLoopAux p t (b + 1) k = retryLoopAux p t b (k + 1) := by
  rw [retryLoopAux, h]

/-- With `raise_on_status=False`, an exhausted budget returns the last
retryable response instead of raising. -/
theorem retryLoop_resp_retry_zero (p : RetryPolicy) (t : Transport) (k : Nat)
    (r : HttpResponse) (h : t k = .resp r) (hr : p.is_retry "POST" r.status = true) :
    retryLoopAux p t 0 k = (k + 1, .resp r) := by
  rw [retryLoopAux, h]
  simp [hr]

/-- The retry loop retries a retryable-status response while budget
remains. -/
theorem retryLoop_resp_retry_step (p : RetryPolicy) (t : Transport) (b k : Nat)
    (r : HttpResponse) (h : t k = .resp r) (hr : p.is_retry "POST" r.status = true) :
    retryLoopAux p t (b + 1) k = retryLoopAux p t b (k + 1) := by
  rw [retryLoopAux, h]
  simp [hr]

/-- A response whose status is not retryable is returned immediately. -/
theorem retryLoop_resp_stop (p : RetryPolicy) (t : Transport) (b k : Nat)
    (r : HttpResponse) (h : t k = .resp r) (hr : p.is_retry "POST" r.status = false) :
    retryLoopAux p t b k = (k + 1, .resp r) := by
  rw [retryLoopAux, h]
  simp [hr]

/-- The retry loop makes at most `budget + 1` further attempts. -/
theorem retryLoopAux_attempts_le (p : RetryPolicy) (t : Transport) :
    ∀ budget k, (retryLoopAux p t budget k).1 ≤ k + budget + 1 := by
  intro budget
  induction budget with
  | zero =>
    intro k
    cases h : t k with
    | raise d => rw [retryLoop_raise_zero p t k d h]
    | resp r =>
      by_cases hr : p.is_retry "POST" r.status = true
      · rw [retryLoop_resp_retry_zero p t k r h hr]
      · rw [retryLoop_resp_stop p t 0 k r h (by simpa using hr)]
  | succ b ih =>
    intro k
    cases h : t k with
    | raise d =>
      rw [retryLoop_raise_step p t b k d h]
      have := ih (k + 1)
      omega
    | resp r =>
      by_cases hr : p.is_retry "POST" r.status = true
      · rw [retryLoop_resp_retry_step p t b k r h hr]
        have := ih (k + 1)
        omega
      · rw [retryLoop_resp_stop p t (b + 1) k r h (by simpa using hr)]; omega

/-- The session built by `_build_session` makes at most 4 attempts. -/
theorem sessionPost_attempts_le (t : Transport) :
    (sessionPost buildSessionRetry t).1 ≤ 4 := by
  have := retryLoopAux_attempts_le buildSessionRetry t buildSessionRetry.total 0
  simpa [sessionPost, buildSessionRetry] using this

/-- On a transport answering 503 twice and then 200, the session makes 3
attempts and delivers the 200 response. -/
theorem sessionPost_503_503_200 (a b : HttpResponse)
    (ha : a.status = 503) (hb : b.status = 200) :
    sessionPost buildSessionRetry (twoThenTransport (.resp a) (.resp b)) = (3, .resp b) := by
  have h0 : twoThenTransport (.resp a) (.resp b) 0 = .resp a := rfl
  have h1 : twoThenTransport (.resp a) (.resp b) 1 = .resp a := rfl
  have h2 : twoThenTransport (.resp a) (.resp b) 2 = .resp b := rfl
  have hra : buildSessionRetry.is_retry "POST" a.status = true := by rw [ha]; decide
  have hrb : buildSessionRetry.is_retry "POST" b.status = false := by rw [hb]; decide
  show retryLoopAux buildSessionRetry _ 3 0 = (3, .resp b)
  rw [retryLoop_resp_retry_step _ _ 2 0 a h0 hra,
      retryLoop_resp_retry_step _ _ 1 1 a h1 hra,
      retryLoop_resp_stop _ _ 1 2 b h2 hrb]

/-- On a transport answering 503 on every attempt, the session makes 4
attempts and delivers the last 503 response. -/
theorem sessionPost_all503 (a : HttpResponse) (ha : a.status = 503) :
    sessionPost buildSessionRetry (constTransport (.resp a)) = (4, .resp a) := by
  have h : ∀ k, constTransport (.resp a) k = .resp a := fun _ => rfl
  have hra : buildSessionRetry.is_retry "POST" a.status = true := by rw [ha]; decide
  show retryLoopAux buildSessionRetry _ 3 0 = (4, .resp a)
  rw [retryLoop_resp_retry_step _ _ 2 0 a (h 0) hra,
      retryLoop_resp_retry_step _ _ 1 1 a (h 1) hra,
      retryLoop_resp_retry_step _ _ 0 2 a (h 2) hra,
      retryLoop_resp_retry_zero _ _ 3 a (h 3) hra]

/-- A first response with a non-retryable status ends the session call at
one attempt, whatever the budget. -/
theorem sessionPost_first_no_retry (p : RetryPolicy) (t : Transport) (r : HttpResponse)
    (h0 : t 0 = .resp r) (hr : p.is_retry "POST" r.status = false) :
    sessionPost p t = (1, .resp r) := by
  show retryLoopAux p t p.total 0 = (1, .resp r)
  rw [retryLoop_resp_stop p t p.total 0 r h0 hr]

/-- The result field of a `_post_json` trace is the normalized session
outcome. -/
theorem post_json_result (self : LLMProxy) (t : Transport) (rt : String)
    (payload : List (String × Option JsonValue)) :
    (self.post_json t rt payload).result
      = normalizeOutcome false (sessionPost self.session t).2 := rfl

/-- The attempt count of a `_post_json` trace is the session's. -/
theorem post_json_attempts (self : LLMProxy) (t : Transport) (rt : String)
    (payload : List (String × Option JsonValue)) :
    (self.post_json t rt payload).attempts = (sessionPost self.session t).1 := rfl

/-- The headers of a `_post_json` trace come from `_headers` with no
extras. -/
theorem post_json_sentHeaders (self : LLMProxy) (t : Transport) (rt : String)
    (payload : List (String × Option JsonValue)) :
    (self.post_json t rt payload).sentHeaders = self.headersOf rt none := rfl

/-- The transmitted body of a `_post_json` trace is the payload with the
`None`-valued entries removed. -/
theorem post_json_sentBody (self : LLMProxy) (t : Transport) (rt : String)
    (payload : List (String × Option JsonValue)) :
    (self.post_json t rt payload).sentBody
      = payload.filterMap (fun kv => kv.2.map (fun v => (kv.1, v))) := rfl

/-- The epilogue of `generate` never changes the transmitted body. -/
theorem generateEpilogue_sentBody (res : PostTrace) :
    (generateEpilogue res).sentBody = res.sentBody := by
  unfold generateEpilogue
  cases h : res.result with
  | ret v =>
    cases h2 : pyContainsError v with
    | ok b => simp [h2]
    | error e => simp [h2]
  | exn e => rfl

/-- The epilogue of `generate` never changes the transmitted headers. -/
theorem generateEpilogue_sentHeaders (res : PostTrace) :
    (generateEpilogue res).sentHeaders = res.sentHeaders := by
  unfold generateEpilogue
  cases h : res.result with
  | ret v =>
    cases h2 : pyContainsError v with
    | ok b => simp [h2]
    | error e => simp [h2]
  | exn e => rfl

/-- The epilogue of `generate` never changes the attempt count. -/
theorem generateEpilogue_attempts (res : PostTrace) :
    (generateEpilogue res).attempts = res.attempts := by
  unfold generateEpilogue
  cases h : res.result with
  | ret v =>
    cases h2 : pyContainsError v with
    | ok b => simp [h2]
    | error e => simp [h2]
  | exn e => rfl

/-- When the membership test succeeds, the epilogue returns the trace
unchanged. -/
theorem generateEpilogue_ok (res : PostTrace) (v : JsonValue) (b : Bool)
    (h : res.result = .ret v) (h2 : pyContainsError v = .ok b) :
    generateEpilogue res = res := by
  unfold generateEpilogue
  rw [h]
  simp [h2]

/-- The membership test `"error" in v` succeeds on every dict value. -/
theorem pyContainsError_dict (k : String) (v rest : JsonValue) :
    pyContainsError (.objCons k v rest) = .ok ((JsonValue.objCons k v rest).hasKey "error") := rfl

/-- C1 counterexample: on a transport that returns 503 on every attempt the
client performs 4 attempts, not the 3 the claim states (the session is
configured with `total=3` retries on top of the initial attempt). -/
theorem C1_counterexample_four_attempts :
    (client0.model_info tAll503).attempts = 4 ∧
    ¬ (client0.model_info tAll503).attempts = 3 := by
  constructor
  · rfl
  · decide

/-- The attempt count of a `generate` trace is the session's. -/
theorem generate_attempts (self : LLMProxy) (t : Transport) (m sys q : String)
    (temp : Option ℚ) (lk : Option Int) (sid : Option String)
    (rth : Option ℚ) (ru : Option Bool) (rk : Option Int) :
    (self.generate t m sys q temp lk sid rth ru rk).attempts
      = (sessionPost self.session t).1 := by
  show (generateEpilogue (self.post_json t "call" _)).attempts = _
  rw [generateEpilogue_attempts, post_json_attempts]

/-- The attempt count of an `upload_text` trace is the session's. -/
theorem upload_text_attempts (self : LLMProxy) (t : Transport) (text sid2 : String)
    (descr strat : Option String) :
    (self.upload_text t text sid2 descr strat).attempts
      = (sessionPost self.session t).1 := rfl

/-- The result of an `upload_text` trace is the upload-style normalized
session outcome. -/
theorem upload_text_result (self : LLMProxy) (t : Transport) (text sid2 : String)
    (descr strat : Option String) :
    (self.upload_text t text sid2 descr strat).result
      = normalizeOutcome true (sessionPost self.session t).2 := rfl

/-- When the file exists, the attempt count of an `upload_file` trace is
the session's. -/
theorem upload_file_attempts_of_exists (self : LLMProxy) (t : Transport)
    (fs : FileSystem) (file_path sid2 : String) (mt descr strat : Option String)
    (hfs : fs.pathExists file_path = true) :
    (self.upload_file t fs file_path sid2 mt descr strat).attempts
      = (sessionPost self.session t).1 := by
  unfold LLMProxy.upload_file
  rw [hfs]
  simp

/-- When the file exists, the result of an `upload_file` trace is the
upload-style normalized session outcome. -/
theorem upload_file_result_of_exists (self : LLMProxy) (t : Transport)
    (fs : FileSystem) (file_path sid2 : String) (mt descr strat : Option String)
    (hfs : fs.pathExists file_path = true) :
    (self.upload_file t fs file_path sid2 mt descr strat).result
      = normalizeOutcome true (sessionPost self.session t).2 := by
  unfold LLMProxy.upload_file
  rw [hfs]
  simp

/-- When the file does not exist, `upload_file` makes zero attempts. -/
theorem upload_file_attempts_of_missing (self : LLMProxy) (t : Transport)
    (fs : FileSystem) (file_path sid2 : String) (mt descr strat : Option String)
    (hfs : fs.pathExists file_path = false) :
    (self.upload_file t fs file_path sid2 mt descr strat).attempts = 0 := by
  unfold LLMProxy.upload_file
  rw [hfs]
  simp

/-- The membership test `"error" in v` succeeds on every dict value, giving
the key lookup. -/
theorem pyContainsError_of_isDict (j : JsonValue) (h : j.isDict = true) :
    pyContainsError j = .ok (j.hasKey "error") := by
  cases j with
  | null => simp [JsonValue.isDict] at h
  | bool b => simp [JsonValue.isDict] at h
  | int n => simp [JsonValue.isDict] at h
  | float q => simp [JsonValue.isDict] at h
  | str s => simp [JsonValue.isDict] at h
  | objNil => rfl
  | objCons k v rest => rfl

/-- C1 (amended): every client operation retries only on HTTP 429, 500,
502, 503, 504 with exponential backoff of factor 0.5s, performing at most
4 attempts total (one initial attempt plus up to 3 retries): for each
operation, a transport that returns 503 twice then 200 yields exactly 3
attempts and the 200 success envelope, and a transport that returns 503 on
every attempt yields exactly 4 attempts and an error envelope reflecting
the last 503; a first response with a status outside the forcelist is
never retried. -/
theorem C1_retry_amended :
    (buildSessionRetry.total = 3 ∧
     buildSessionRetry.backoff_factor = 1/2 ∧
     buildSessionRetry.status_forcelist = [429, 500, 502, 503, 504]) ∧
    (∀ (self : LLMProxy) (t : Transport) (m sys q sid2 text file_path : String)
       (temp : Option ℚ) (lk : Option Int) (sid : Option String)
       (rth : Option ℚ) (ru : Option Bool) (rk : Option Int)
       (rthr : ℚ) (rk2 : Int) (fs : FileSystem) (mt descr strat : Option String),
      self.session = buildSessionRetry →
      (self.generate t m sys q temp lk sid rth ru rk).attempts ≤ 4 ∧
      (self.retrieve t q sid2 rthr rk2).attempts ≤ 4 ∧
      (self.model_info t).attempts ≤ 4 ∧
      (self.upload_file t fs file_path sid2 mt descr strat).attempts ≤ 4 ∧
      (self.upload_text t text sid2 descr strat).attempts ≤ 4) ∧
    (∀ (self : LLMProxy) (t : Transport) (r : HttpResponse)
       (m sys q sid2 text file_path : String)
       (temp : Option ℚ) (lk : Option Int) (sid : Option String)
       (rth : Option ℚ) (ru : Option Bool) (rk : Option Int)
       (rthr : ℚ) (rk2 : Int) (fs : FileSystem) (mt descr strat : Option String),
      self.session = buildSessionRetry → t 0 = .resp r →
      buildSessionRetry.status_forcelist.contains r.status = false →
      (self.generate t m sys q temp lk sid rth ru rk).attempts = 1 ∧
      (self.retrieve t q sid2 rthr rk2).attempts = 1 ∧
      (self.model_info t).attempts = 1 ∧
      (fs.pathExists file_path = true →
        (self.upload_file t fs file_path sid2 mt descr strat).attempts = 1) ∧
      (self.upload_text t text sid2 descr strat).attempts = 1) ∧
    (∀ (self : LLMProxy) (a b : HttpResponse) (j : JsonValue)
       (m sys q sid2 text file_path : String)
       (temp : Option ℚ) (lk : Option Int) (sid : Option String)
       (rth : Option ℚ) (ru : Option Bool) (rk : Option Int)
       (rthr : ℚ) (rk2 : Int) (fs : FileSystem) (mt descr strat : Option String),
      self.session = buildSessionRetry → a.status = 503 → b.status = 200 →
      b.jsonBody = some j → j.isDict = true →
      ((self.generate (twoThenTransport (.resp a) (.resp b)) m sys q temp lk sid rth ru rk).attempts = 3 ∧
        (self.generate (twoThenTransport (.resp a) (.resp b)) m sys q temp lk sid rth ru rk).result = .ret j) ∧
      ((self.retrieve (twoThenTransport (.resp a) (.resp b)) q sid2 rthr rk2).attempts = 3 ∧
        (self.retrieve (twoThenTransport (.resp a) (.resp b)) q sid2 rthr rk2).result = .ret j) ∧
      ((self.model_info (twoThenTransport (.resp a) (.resp b))).attempts = 3 ∧
        (self.model_info (twoThenTransport (.resp a) (.resp b))).result = .ret j) ∧
      (fs.pathExists file_path = true →
        (self.upload_file (twoThenTransport (.resp a) (.resp b)) fs file_path sid2 mt descr strat).attempts = 3 ∧
        (self.upload_file (twoThenTransport (.resp a) (.resp b)) fs file_path sid2 mt descr strat).result = .ret j) ∧
      ((self.upload_text (twoThenTransport (.resp a) (.resp b)) text sid2 descr strat).attempts = 3 ∧
        (self.upload_text (twoThenTransport (.resp a) (.resp b)) text sid2 descr strat).result = .ret j)) ∧
    (∀ (self : LLMProxy) (a : HttpResponse)
       (m sys q sid2 text file_path : String)
       (temp : Option ℚ) (lk : Option Int) (sid : Option String)
       (rth : Option ℚ) (ru : Option Bool) (rk : Option Int)
       (rthr : ℚ) (rk2 : Int) (fs : FileSystem) (mt descr strat : Option String),
      self.session = buildSessionRetry → a.status = 503 → a.jsonBody = none →
      ((self.generate (constTransport (.resp a)) m sys q temp lk sid rth ru rk).attempts = 4 ∧
        (self.generate (constTransport (.resp a)) m sys q temp lk sid rth ru rk).result
          = .ret (httpErrorEnvelope 503 a.text)) ∧
      ((self.retrieve (constTransport (.resp a)) q sid2 rthr rk2).attempts = 4 ∧
        (self.retrieve (constTransport (.resp a)) q sid2 rthr rk2).result
          = .ret (httpErrorEnvelope 503 a.text)) ∧
      ((self.model_info (constTransport (.resp a))).attempts = 4 ∧
        (self.model_info (constTransport (.resp a))).result
          = .ret (httpErrorEnvelope 503 a.text)) ∧
      (fs.pathExists file_path = true →
        (self.upload_file (constTransport (.resp a)) fs file_path sid2 mt descr strat).attempts = 4 ∧
        (self.upload_file (constTransport (.resp a)) fs file_path sid2 mt descr strat).result
          = .ret (httpErrorEnvelope 503 a.text)) ∧
      ((self.upload_text (constTransport (.resp a)) text sid2 descr strat).attempts = 4 ∧
        (self.upload_text (constTransport (.resp a)) text sid2 descr strat).result
          = .ret (httpErrorEnvelope 503 a.text))) := by
  refine ⟨⟨rfl, rfl, rfl⟩, ?_, ?_, ?_, ?_⟩
  · intro self t m sys q sid2 text file_path temp lk sid rth ru rk rthr rk2 fs mt descr strat hs
    have hb : (sessionPost self.session t).1 ≤ 4 := by
      rw [hs]
      exact sessionPost_attempts_le t
    refine ⟨?_, ?_, ?_, ?_, ?_⟩
    · rw [generate_attempts]
      exact hb
    · rw [show (self.retrieve t q sid2 rthr rk2) = self.post_json t "retrieve" _ from rfl,
        post_json_attempts]
      exact hb
    · rw [show (self.model_info t) = self.post_json t "model_info" {} from rfl,
        post_json_attempts]
      exact hb
    · by_cases hfs : fs.pathExists file_path = true
      · rw [upload_file_attempts_of_exists self t fs file_path sid2 mt descr strat hfs]
        exact hb
      · rw [upload_file_attempts_of_missing self t fs file_path sid2 mt descr strat
          (by simpa using hfs)]
        omega
    · rw [upload_text_attempts]
      exact hb
  · intro self t r m sys q sid2 text file_path temp lk sid rth ru rk rthr rk2 fs mt descr strat hs h0 hc
    have hr : buildSessionRetry.is_retry "POST" r.status = false := by
      simp [RetryPolicy.is_retry]
      intro _
      simpa using hc
    have hone : (sessionPost self.session t).1 = 1 := by
      rw [hs, sessionPost_first_no_retry buildSessionRetry t r h0 hr]
    refine ⟨?_, ?_, ?_, ?_, ?_⟩
    · rw [generate_attempts]
      exact hone
    · rw [show (self.retrieve t q sid2 rthr rk2) = self.post_json t "retrieve" _ from rfl,
        post_json_attempts]
      exact hone
    · rw [show (self.model_info t) = self.post_json t "model_info" {} from rfl,
        post_json_attempts]
      exact hone
    · intro hfs
      rw [upload_file_attempts_of_exists self t fs file_path sid2 mt descr strat hfs]
      exact hone
    · rw [upload_text_attempts]
      exact hone
  · intro self a b j m sys q sid2 text file_path temp lk sid rth ru rk rthr rk2 fs mt descr strat hs ha hb hj hd
    have hsess := sessionPost_503_503_200 a b ha hb
    have hatt : (sessionPost self.session (twoThenTransport (.resp a) (.resp b))).1 = 3 := by
      rw [hs, hsess]
    have hnf : normalizeOutcome false
        (sessionPost self.session (twoThenTransport (.resp a) (.resp b))).2 = .ret j := by
      rw [hs, hsess]
      simp [normalizeOutcome, hb, hj]
    have hnt : normalizeOutcome true
        (sessionPost self.session (twoThenTransport (.resp a) (.resp b))).2 = .ret j := by
      rw [hs, hsess]
      simp [normalizeOutcome, hb, hj]
    refine ⟨⟨?_, ?_⟩, ⟨?_, ?_⟩, ⟨?_, ?_⟩, ?_, ⟨?_, ?_⟩⟩
    · rw [generate_attempts]
      exact hatt
    · show (generateEpilogue (self.post_json _ "call" _)).result = _
      rw [generateEpilogue_ok (self.post_json _ "call" _) j _
        (by rw [post_json_result]; exact hnf) (pyContainsError_of_isDict j hd)]
      rw [post_json_result]
      exact hnf
    · rw [show (self.retrieve _ q sid2 rthr rk2) = self.post_json _ "retrieve" _ from rfl,
        post_json_attempts]
      exact hatt
    · rw [show (self.retrieve _ q sid2 rthr rk2) = self.post_json _ "retrieve" _ from rfl,
        post_json_result]
      exact hnf
    · rw [show (self.model_info _) = self.post_json _ "model_info" {} from rfl,
        post_json_attempts]
      exact hatt
    · rw [show (self.model_info _) = self.post_json _ "model_info" {} from rfl,
        post_json_result]
      exact hnf
    · intro hfs
      constructor
      · rw [upload_file_attempts_of_exists self _ fs file_path sid2 mt descr strat hfs]
        exact hatt
      · rw [upload_file_result_of_exists self _ fs file_path sid2 mt descr strat hfs]
        exact hnt
    · rw [upload_text_attempts]
      exact hatt
    · rw [upload_text_result]
      exact hnt
  · intro self a m sys q sid2 text file_path temp lk sid rth ru rk rthr rk2 fs mt descr strat hs ha hj
    have hsess := sessionPost_all503 a ha
    have hatt : (sessionPost self.session (constTransport (.resp a))).1 = 4 := by
      rw [hs, hsess]
    have hnf : normalizeOutcome false
        (sessionPost self.session (constTransport (.resp a))).2
          = .ret (httpErrorEnvelope 503 a.text) := by
      rw [hs, hsess]
      simp [normalizeOutcome, ha, errorDetail, hj]
    have hnt : normalizeOutcome true
        (sessionPost self.session (constTransport (.resp a))).2
          = .ret (httpErrorEnvelope 503 a.text) := by
      rw [hs, hsess]
      simp [normalizeOutcome, ha, errorDetail, hj]
    refine ⟨⟨?_, ?_⟩, ⟨?_, ?_⟩, ⟨?_, ?_⟩, ?_, ⟨?_, ?_⟩⟩
    · rw [generate_attempts]
      exact hatt
    · show (generateEpilogue (self.post_json _ "call" _)).result = _
      rw [generateEpilogue_ok (self.post_json _ "call" _) (httpErrorEnvelope 503 a.text) _
        (by rw [post_json_result]; exact hnf) (pyContainsError_dict _ _ _)]
      rw [post_json_result]
      exact hnf
    · rw [show (self.retrieve _ q sid2 rthr rk2) = self.post_json _ "retrieve" _ from rfl,
        post_json_attempts]
      exact hatt
    · rw [show (self.retrieve _ q sid2 rthr rk2) = self.post_json _ "retrieve" _ from rfl,
        post_json_result]
      exact hnf
    · rw [show (self.model_info _) = self.post_json _ "model_info" {} from rfl,
        post_json_attempts]
      exact hatt
    · rw [show (self.model_info _) = self.post_json _ "model_info" {} from rfl,
        post_json_result]
      exact hnf
    · intro hfs
      constructor
      · rw [upload_file_attempts_of_exists self _ fs file_path sid2 mt descr strat hfs]
        exact hatt
      · rw [upload_file_result_of_exists self _ fs file_path sid2 mt descr strat hfs]
        exact hnt
    · rw [upload_text_attempts]
      exact hatt
    · rw [upload_text_result]
      exact hnt

/-- C1 witness: the amended retry behaviour evaluated on the concrete
client and the concrete 503/200 transports, for a JSON operation and both
upload operations. -/
theorem C1_retry_amended_witness :
    (client0.model_info t503x2then200).attempts = 3 ∧
    (client0.model_info t503x2then200).result = .ret (.objOf [("result", .str "hi")]) ∧
    (client0.upload_text t503x2then200 "hello" "sid" none (some "smart")).attempts = 3 ∧
    (client0.upload_text t503x2then200 "hello" "sid" none (some "smart")).result
      = .ret (.objOf [("result", .str "hi")]) ∧
    (client0.model_info tAll503).attempts = 4 ∧
    (client0.model_info tAll503).result = .ret (httpErrorEnvelope 503 "busy") ∧
    (client0.upload_file tAll503 fsAll "doc.pdf" "sid" none none (some "smart")).attempts = 4 ∧
    (client0.model_info t403).attempts = 1 ∧
    (client0.upload_text t403 "hello" "sid" none (some "smart")).attempts = 1 := by
  have h := C1_retry_amended
  have h1 := h.2.2.2.1 client0 ⟨503, "busy", none⟩
    ⟨200, "ok", some (.objOf [("result", .str "hi")])⟩ (.objOf [("result", .str "hi")])
    "m" "sys" "q" "sid" "hello" "doc.pdf" none none (some "GenericSession")
    (some (1/2)) (some false) (some 5) (1/2) 5 fsAll none none (some "smart")
    rfl rfl rfl rfl rfl
  have h2 := h.2.2.2.2 client0 ⟨503, "busy", none⟩
    "m" "sys" "q" "sid" "hello" "doc.pdf" none none (some "GenericSession")
    (some (1/2)) (some false) (some 5) (1/2) 5 fsAll none none (some "smart")
    rfl rfl rfl
  have h3 := h.2.2.1 client0 t403 ⟨403, "raw body", some (.objOf [("error", .str "invalid key")])⟩
    "m" "sys" "q" "sid" "hello" "doc.pdf" none none (some "GenericSession")
    (some (1/2)) (some false) (some 5) (1/2) 5 fsAll none none (some "smart")
    rfl rfl (by decide)
  exact ⟨h1.2.2.1.1, h1.2.2.1.2, h1.2.2.2.2.1, h1.2.2.2.2.2, h2.2.2.1.1, h2.2.2.1.2,
    (h2.2.2.2.1 rfl).1, h3.2.2.1, h3.2.2.2.2⟩

/-- C2: whenever the session raises a transport-level failure (DNS failure,
connection refused, timeout after retry exhaustion), every public operation
returns the envelope with error message prefixed `Network error: ` and a
null status code, and no exception escapes to the caller. -/
theorem C2_network_error_envelope :
    ∀ (self : LLMProxy) (t : Transport) (d : String),
      (sessionPost self.session t).2 = .raised d →
      ∀ (m sys q sid2 text file_path : String) (temp : Option ℚ)
        (lk : Option Int) (sid : Option String) (rth : Option ℚ)
        (ru : Option Bool) (rk : Option Int) (rthr : ℚ) (rk2 : Int)
        (fs : FileSystem) (mt descr strat : Option String),
      (self.generate t m sys q temp lk sid rth ru rk).result
          = .ret (networkErrorEnvelope d) ∧
      (self.retrieve t q sid2 rthr rk2).result = .ret (networkErrorEnvelope d) ∧
      (self.model_info t).result = .ret (networkErrorEnvelope d) ∧
      (fs.pathExists file_path = true →
        (self.upload_file t fs file_path sid2 mt descr strat).result
          = .ret (networkErrorEnvelope d)) ∧
      (self.upload_text t text sid2 descr strat).result
          = .ret (networkErrorEnvelope d) := by
  intro self t d h m sys q sid2 text file_path temp lk sid rth ru rk rthr rk2 fs mt descr strat
  have hnf : normalizeOutcome false (sessionPost self.session t).2
      = .ret (networkErrorEnvelope d) := by rw [h]; rfl
  have hnt : normalizeOutcome true (sessionPost self.session t).2
      = .ret (networkErrorEnvelope d) := by rw [h]; rfl
  refine ⟨?_, ?_, ?_, ?_, ?_⟩
  · show (generateEpilogue (self.post_json t "call" _)).result = _
    rw [generateEpilogue_ok (self.post_json t "call" _) (networkErrorEnvelope d) _
      (by rw [post_json_result]; exact hnf) (pyContainsError_dict _ _ _)]
    rw [post_json_result]
    exact hnf
  · rw [show (self.retrieve t q sid2 rthr rk2) = self.post_json t "retrieve" _ from rfl,
      post_json_result]
    exact hnf
  · rw [show (self.model_info t) = self.post_json t "model_info" {} from rfl,
      post_json_result]
    exact hnf
  · intro hfs
    unfold LLMProxy.upload_file
    rw [hfs]
    simpa using hnt
  · show normalizeOutcome true (sessionPost self.session t).2 = _
    exact hnt

/-- C2 witness: the network-error envelope observed on the concrete client
with a transport that refuses every connection. -/
theorem C2_network_error_envelope_witness :
    (client0.generate tRaise "m" "sys" "q" none none (some "GenericSession")
        (some (1/2)) (some false) (some 5)).result
      = .ret (networkErrorEnvelope "connection refused") ∧
    (client0.model_info tRaise).result = .ret (networkErrorEnvelope "connection refused") ∧
    (client0.upload_file tRaise fsAll "doc.pdf" "sid" none none (some "smart")).result
      = .ret (networkErrorEnvelope "connection refused") ∧
    (client0.upload_text tRaise "hello" "sid" none (some "smart")).result
      = .ret (networkErrorEnvelope "connection refused") := by
  have h := C2_network_error_envelope client0 tRaise "connection refused" rfl
    "m" "sys" "q" "sid" "hello" "doc.pdf" none none (some "GenericSession")
    (some (1/2)) (some false) (some 5) (1/2) 5 fsAll none none (some "smart")
  exact ⟨h.1, h.2.2.1, h.2.2.2.1 rfl, h.2.2.2.2⟩

/-- C3 counterexample: on a 2xx response whose body `OK` is not valid JSON,
`upload_text` returns `{"message": "OK"}` rather than the error envelope
`{error: "Invalid JSON in response", statusCode: 200}` the claim requires
of every public operation. -/
theorem C3_counterexample_upload_message :
    (client0.upload_text t200NotJson "hello" "sid" none (some "smart")).result
      = .ret (.objOf [("message", .str "OK")]) ∧
    (client0.upload_text t200NotJson "hello" "sid" none (some "smart")).result
      ≠ .ret (invalidJsonEnvelope 200) := by
  constructor
  · rfl
  · decide

/-- C3 (amended): on a 2xx response whose body is not valid JSON,
`generate`, `retrieve` and `model_info` return the envelope
`{error: "Invalid JSON in response", statusCode: <the 2xx status>}` rather
than raising a parse error or returning a success value, while
`upload_file` and `upload_text` instead return `{message: <raw body
text>}`. -/
theorem C3_invalid_json_amended :
    ∀ (self : LLMProxy) (t : Transport) (r : HttpResponse),
      (sessionPost self.session t).2 = .resp r →
      200 ≤ r.status → r.status < 300 → r.jsonBody = none →
      ∀ (m sys q sid2 text file_path : String) (temp : Option ℚ)
        (lk : Option Int) (sid : Option String) (rth : Option ℚ)
        (ru : Option Bool) (rk : Option Int) (rthr : ℚ) (rk2 : Int)
        (fs : FileSystem) (mt descr strat : Option String),
      (self.generate t m sys q temp lk sid rth ru rk).result
          = .ret (invalidJsonEnvelope r.status) ∧
      (self.retrieve t q sid2 rthr rk2).result = .ret (invalidJsonEnvelope r.status) ∧
      (self.model_info t).result = .ret (invalidJsonEnvelope r.status) ∧
      (fs.pathExists file_path = true →
        (self.upload_file t fs file_path sid2 mt descr strat).result
          = .ret (.objOf [("message", .str r.text)])) ∧
      (self.upload_text t text sid2 descr strat).result
          = .ret (.objOf [("message", .str r.text)]) := by
  intro self t r h h2a h2b hj m sys q sid2 text file_path temp lk sid rth ru rk rthr rk2 fs mt descr strat
  have hnf : normalizeOutcome false (sessionPost self.session t).2
      = .ret (invalidJsonEnvelope r.status) := by
    rw [h]
    simp [normalizeOutcome, h2a, h2b, hj]
  have hnt : normalizeOutcome true (sessionPost self.session t).2
      = .ret (.objOf [("message", .str r.text)]) := by
    rw [h]
    simp [normalizeOutcome, h2a, h2b, hj]
  refine ⟨?_, ?_, ?_, ?_, ?_⟩
  · show (generateEpilogue (self.post_json t "call" _)).result = _
    rw [generateEpilogue_ok (self.post_json t "call" _) (invalidJsonEnvelope r.status) _
      (by rw [post_json_result]; exact hnf) (pyContainsError_dict _ _ _)]
    rw [post_json_result]
    exact hnf
  · rw [show (self.retrieve t q sid2 rthr rk2) = self.post_json t "retrieve" _ from rfl,
      post_json_result]
    exact hnf
  · rw [show (self.model_info t) = self.post_json t "model_info" {} from rfl,
      post_json_result]
    exact hnf
  · intro hfs
    unfold LLMProxy.upload_file
    rw [hfs]
    simpa using hnt
  · show normalizeOutcome true (sessionPost self.session t).2 = _
    exact hnt

/-- C3 witness: the amended behaviour evaluated on the concrete client and
the concrete 200-with-invalid-JSON transport. -/
theorem C3_invalid_json_amended_witness :
    (client0.model_info t200NotJson).result = .ret (invalidJsonEnvelope 200) ∧
    (client0.generate t200NotJson "m" "sys" "q" none none (some "GenericSession")
        (some (1/2)) (some false) (some 5)).result = .ret (invalidJsonEnvelope 200) ∧
    (client0.upload_file t200NotJson fsAll "doc.pdf" "sid" none none (some "smart")).result
      = .ret (.objOf [("message", .str "OK")]) := by
  have h := C3_invalid_json_amended client0 t200NotJson ⟨200, "OK", none⟩ rfl
    (by decide) (by decide) rfl
    "m" "sys" "q" "sid" "hello" "doc.pdf" none none (some "GenericSession")
    (some (1/2)) (some false) (some 5) (1/2) 5 fsAll none none (some "smart")
  exact ⟨h.2.2.1, h.1, h.2.2.2.1 rfl⟩

/-- Spec-side helper: the singleton key list contributed by an optional
argument when it is non-null, the empty list when it is null. -/
def optKey {α : Type} (name : String) (o : Option α) : List String :=
  if o.isSome then [name] else []

/-- C4: the keys of the JSON body transmitted by `generate` are exactly the
parameter names whose (supplied or defaulted) argument value is non-null;
optional parameters left null are entirely absent, never present with a
null value. -/
theorem C4_generate_body_keys :
    ∀ (self : LLMProxy) (t : Transport) (m sys q : String)
      (temp : Option ℚ) (lk : Option Int) (sid : Option String)
      (rth : Option ℚ) (ru : Option Bool) (rk : Option Int),
      (self.generate t m sys q temp lk sid rth ru rk).sentBody.map Prod.fst =
        ["model", "system", "query"] ++ optKey "temperature" temp ++
        optKey "lastk" lk ++ optKey "session_id" sid ++
        optKey "rag_threshold" rth ++ optKey "rag_usage" ru ++
        optKey "rag_k" rk := by
  intro self t m sys q temp lk sid rth ru rk
  show (generateEpilogue (self.post_json t "call" _)).sentBody.map Prod.fst = _
  rw [generateEpilogue_sentBody, post_json_sentBody]
  cases temp <;> cases lk <;> cases sid <;> cases rth <;> cases ru <;> cases rk <;>
    simp [generatePayload, optKey]

/-- C5 counterexample: a 403 response whose body `"no dict"` is valid JSON
but not a JSON object makes `.get` raise an `AttributeError` that escapes
to the caller, so the operation does not return the claimed
`{error: "HTTP 403: <detail>", statusCode: 403}` envelope. -/
theorem C5_counterexample_attribute_error :
    (client0.model_info t403NonDict).result = .exn "AttributeError" ∧
    (client0.model_info t403NonDict).result ≠ .ret (httpErrorEnvelope 403 "no dict") := by
  constructor
  · rfl
  · decide

/-- C5 (amended): for every public operation and every non-2xx response
whose body either fails to parse as JSON or parses to a JSON object, the
result is `{error: "HTTP <status>: <detail>", statusCode: <status>}`, where
detail is the `error` field of the body when it parses to an object
containing one, and the raw response text otherwise; a 403 response with
body `{"error": "invalid key"}` yields `{error: "HTTP 403: invalid key",
statusCode: 403}` after exactly one attempt (no retry).  When the body
parses to a JSON value other than an object, the `.get` lookup instead
raises an `AttributeError`. -/
theorem C5_http_error_amended :
    (∀ (r : HttpResponse), r.jsonBody = none → errorDetail r = .ok r.text) ∧
    (∀ (r : HttpResponse) (j : JsonValue), r.jsonBody = some j → j.isDict = true →
      j.dictGet "error" = none → errorDetail r = .ok r.text) ∧
    (∀ (r : HttpResponse) (j v : JsonValue), r.jsonBody = some j → j.isDict = true →
      j.dictGet "error" = some v → errorDetail r = .ok v.pyStr) ∧
    (∀ (self : LLMProxy) (t : Transport) (r : HttpResponse) (detail : String),
      (sessionPost self.session t).2 = .resp r →
      ¬ (200 ≤ r.status ∧ r.status < 300) →
      errorDetail r = .ok detail →
      ∀ (m sys q sid2 text file_path : String) (temp : Option ℚ)
        (lk : Option Int) (sid : Option String) (rth : Option ℚ)
        (ru : Option Bool) (rk : Option Int) (rthr : ℚ) (rk2 : Int)
        (fs : FileSystem) (mt descr strat : Option String),
      (self.generate t m sys q temp lk sid rth ru rk).result
          = .ret (httpErrorEnvelope r.status detail) ∧
      (self.retrieve t q sid2 rthr rk2).result = .ret (httpErrorEnvelope r.status detail) ∧
      (self.model_info t).result = .ret (httpErrorEnvelope r.status detail) ∧
      (fs.pathExists file_path = true →
        (self.upload_file t fs file_path sid2 mt descr strat).result
          = .ret (httpErrorEnvelope r.status detail)) ∧
      (self.upload_text t text sid2 descr strat).result
          = .ret (httpErrorEnvelope r.status detail)) ∧
    (∀ (self : LLMProxy), self.session = buildSessionRetry →
      (self.model_info t403).attempts = 1 ∧
      (self.model_info t403).result =
        .ret (.objOf [("error", .str "HTTP 403: invalid key"),
                      ("status_code", .int 403)])) := by
  refine ⟨?_, ?_, ?_, ?_, ?_⟩
  · intro r h
    simp [errorDetail, h]
  · intro r j h hd hg
    simp [errorDetail, h, hd, hg]
  · intro r j v h hd hg
    simp [errorDetail, h, hd, hg]
  · intro self t r detail h hnot hdet
    intro m sys q sid2 text file_path temp lk sid rth ru rk rthr rk2 fs mt descr strat
    have hnf : normalizeOutcome false (sessionPost self.session t).2
        = .ret (httpErrorEnvelope r.status detail) := by
      rw [h]
      simp [normalizeOutcome, hnot, hdet]
    have hnt : normalizeOutcome true (sessionPost self.session t).2
        = .ret (httpErrorEnvelope r.status detail) := by
      rw [h]
      simp [normalizeOutcome, hnot, hdet]
    refine ⟨?_, ?_, ?_, ?_, ?_⟩
    · show (generateEpilogue (self.post_json t "call" _)).result = _
      rw [generateEpilogue_ok (self.post_json t "call" _) (httpErrorEnvelope r.status detail) _
        (by rw [post_json_result]; exact hnf) (pyContainsError_dict _ _ _)]
      rw [post_json_result]
      exact hnf
    · rw [show (self.retrieve t q sid2 rthr rk2) = self.post_json t "retrieve" _ from rfl,
        post_json_result]
      exact hnf
    · rw [show (self.model_info t) = self.post_json t "model_info" {} from rfl,
        post_json_result]
      exact hnf
    · intro hfs
      unfold LLMProxy.upload_file
      rw [hfs]
      simpa using hnt
    · show normalizeOutcome true (sessionPost self.session t).2 = _
      exact hnt
  · intro self hs
    constructor
    · show (self.post_json _ "model_info" {}).attempts = 1
      rw [post_json_attempts, hs,
        sessionPost_first_no_retry buildSessionRetry t403
          ⟨403, "raw body", some (.objOf [("error", .str "invalid key")])⟩ rfl (by decide)]
    · show (self.post_json _ "model_info" {}).result = _
      rw [post_json_result, hs,
        sessionPost_first_no_retry buildSessionRetry t403
          ⟨403, "raw body", some (.objOf [("error", .str "invalid key")])⟩ rfl (by decide)]
      rfl

/-- C5 witness: the amended non-2xx behaviour evaluated on the concrete 403
transport. -/
theorem C5_http_error_amended_witness :
    (client0.model_info t403).attempts = 1 ∧
    (client0.model_info t403).result =
      .ret (.objOf [("error", .str "HTTP 403: invalid key"), ("status_code", .int 403)]) ∧
    (client0.upload_text t403 "hello" "sid" none (some "smart")).result
      = .ret (httpErrorEnvelope 403 "invalid key") := by
  have h := C5_http_error_amended
  have h1 := h.2.2.2.2 client0 rfl
  have h2 := h.2.2.2.1 client0 t403 ⟨403, "raw body", some (.objOf [("error", .str "invalid key")])⟩
    "invalid key" rfl (by decide) rfl
    "m" "sys" "q" "sid" "hello" "doc.pdf" none none (some "GenericSession")
    (some (1/2)) (some false) (some 5) (1/2) 5 fsAll none none (some "smart")
  exact ⟨h1.1, h1.2, h2.2.2.2.2⟩

/-- C6: every transmitted request carries exactly the two client-set
headers `x-api-key` (the configured key) and `request_type`, with
`request_type` equal to `call` for `generate`, `retrieve` for `retrieve`,
`model_info` for `model_info`, and `add` for `upload_file` and
`upload_text`. -/
theorem C6_headers_exact :
    ∀ (self : LLMProxy) (t : Transport) (m sys q sid2 text file_path : String)
      (temp : Option ℚ) (lk : Option Int) (sid : Option String)
      (rth : Option ℚ) (ru : Option Bool) (rk : Option Int)
      (rthr : ℚ) (rk2 : Int) (fs : FileSystem) (mt descr strat : Option String),
      (self.generate t m sys q temp lk sid rth ru rk).sentHeaders
          = [("x-api-key", self.config.api_key), ("request_type", "call")] ∧
      (self.retrieve t q sid2 rthr rk2).sentHeaders
          = [("x-api-key", self.config.api_key), ("request_type", "retrieve")] ∧
      (self.model_info t).sentHeaders
          = [("x-api-key", self.config.api_key), ("request_type", "model_info")] ∧
      (fs.pathExists file_path = true →
        (self.upload_file t fs file_path sid2 mt descr strat).sentHeaders
          = [("x-api-key", self.config.api_key), ("request_type", "add")]) ∧
      (self.upload_text t text sid2 descr strat).sentHeaders
          = [("x-api-key", self.config.api_key), ("request_type", "add")] := by
  intro self t m sys q sid2 text file_path temp lk sid rth ru rk rthr rk2 fs mt descr strat
  refine ⟨?_, rfl, rfl, ?_, rfl⟩
  · show (generateEpilogue (self.post_json t "call" _)).sentHeaders = _
    rw [generateEpilogue_sentHeaders, post_json_sentHeaders]
    rfl
  · intro hfs
    unfold LLMProxy.upload_file
    rw [hfs]
    simp [LLMProxy.headersOf]

/-- C6 witness: the exact header lists observed on the concrete client. -/
theorem C6_headers_exact_witness :
    (client0.model_info t403).sentHeaders
        = [("x-api-key", "secret-key"), ("request_type", "model_info")] ∧
    (client0.upload_file tRaise fsAll "doc.pdf" "sid" none none (some "smart")).sentHeaders
        = [("x-api-key", "secret-key"), ("request_type", "add")] := by
  have h := C6_headers_exact client0 t403 "m" "sys" "q" "sid" "hello" "doc.pdf"
    none none (some "GenericSession") (some (1/2)) (some false) (some 5)
    (1/2) 5 fsAll none none (some "smart")
  have h2 := C6_headers_exact client0 tRaise "m" "sys" "q" "sid" "hello" "doc.pdf"
    none none (some "GenericSession") (some (1/2)) (some false) (some 5)
    (1/2) 5 fsAll none none (some "smart")
  exact ⟨h.2.2.1, h2.2.2.2.1 rfl⟩

/-- C7: on a path that does not exist, `upload_file` returns the
`File not found` envelope with a null status code, transmits nothing, and
makes zero transport attempts. -/
theorem C7_file_not_found_no_request :
    ∀ (self : LLMProxy) (t : Transport) (fs : FileSystem) (file_path sid2 : String)
      (mt descr strat : Option String),
      fs.pathExists file_path = false →
      (self.upload_file t fs file_path sid2 mt descr strat).requested = false ∧
      (self.upload_file t fs file_path sid2 mt descr strat).attempts = 0 ∧
      (self.upload_file t fs file_path sid2 mt descr strat).sentHeaders = [] ∧
      (self.upload_file t fs file_path sid2 mt descr strat).result
        = .ret (.objOf [("error", .str ("File not found: " ++ file_path)),
                        ("status_code", .null)]) := by
  intro self t fs file_path sid2 mt descr strat hfs
  unfold LLMProxy.upload_file
  rw [hfs]
  simp

/-- C7 witness: the file-not-found behaviour evaluated on a filesystem
where no path exists, with a transport spy that would record any attempt. -/
theorem C7_file_not_found_no_request_witness :
    (client0.upload_file tRaise fsNone "missing.txt" "sid" none none (some "smart")).requested = false ∧
    (client0.upload_file tRaise fsNone "missing.txt" "sid" none none (some "smart")).attempts = 0 ∧
    (client0.upload_file tRaise fsNone "missing.txt" "sid" none none (some "smart")).result
      = .ret (.objOf [("error", .str "File not found: missing.txt"), ("status_code", .null)]) := by
  have h := C7_file_not_found_no_request client0 tRaise fsNone "missing.txt" "sid"
    none none (some "smart") rfl
  exact ⟨h.1, h.2.1, h.2.2.2⟩

/-- C8: `ClientConfig.from_env` raises the descriptive configuration error
exactly when the endpoint or the API key is missing or empty, and otherwise
returns the configuration holding both values with the default timeout of
118 seconds. -/
theorem C8_config_construction :
    ∀ (env : Env),
      ((ClientConfig.from_env env = .error configErrorMessage) ↔
        (env.endpoint = none ∨ env.endpoint = some "" ∨
         env.api_key = none ∨ env.api_key = some "")) ∧
      (∀ e k, env.endpoint = some e → env.api_key = some k → e ≠ "" → k ≠ "" →
        ClientConfig.from_env env
          = .ok { endpoint := e, api_key := k, timeout := 118 }) := by
  intro env
  obtain ⟨eo, ko⟩ := env
  constructor
  · cases eo with
    | none => simp [ClientConfig.from_env, pyTruthy]
    | some e =>
      cases ko with
      | none => simp [ClientConfig.from_env, pyTruthy]
      | some k =>
        by_cases he : e = "" <;> by_cases hk : k = "" <;>
          simp [ClientConfig.from_env, pyTruthy, he, hk]
  · intro e k he hk hne hnk
    simp only [Env.endpoint] at he
    simp only [Env.api_key] at hk
    cases he
    cases hk
    simp [ClientConfig.from_env, pyTruthy, hne, hnk, ClientConfig.timeout_default]

/-- C8 witness: construction succeeds on a complete environment and fails
on an environment missing the endpoint. -/
theorem C8_config_construction_witness :
    ClientConfig.from_env ⟨some "https://proxy.example", some "secret-key"⟩
      = .ok { endpoint := "https://proxy.example", api_key := "secret-key", timeout := 118 } ∧
    ClientConfig.from_env ⟨none, some "secret-key"⟩ = .error configErrorMessage := by
  have h1 := (C8_config_construction ⟨some "https://proxy.example", some "secret-key"⟩).2
    "https://proxy.example" "secret-key" rfl rfl (by decide) (by decide)
  have h2 := (C8_config_construction ⟨none, some "secret-key"⟩).1.mpr (Or.inl rfl)
  exact ⟨h1, h2⟩

/-- C9: viewing each public operation as a state transition on the client
object, the configuration (endpoint, API key, timeout) is unchanged by
every call, whatever the transport outcome: the client object after the
call is the receiver itself. -/
theorem C9_config_immutable :
    ∀ (self : LLMProxy) (t : Transport) (m sys q sid2 text file_path : String)
      (temp : Option ℚ) (lk : Option Int) (sid : Option String)
      (rth : Option ℚ) (ru : Option Bool) (rk : Option Int)
      (rthr : ℚ) (rk2 : Int) (fs : FileSystem) (mt descr strat : Option String),
      ((self.generate_step t m sys q temp lk sid rth ru rk).2.config = self.config ∧
        (self.generate_step t m sys q temp lk sid rth ru rk).2 = self) ∧
      ((self.retrieve_step t q sid2 rthr rk2).2.config = self.config ∧
        (self.retrieve_step t q sid2 rthr rk2).2 = self) ∧
      ((self.model_info_step t).2.config = self.config ∧
        (self.model_info_step t).2 = self) ∧
      ((self.upload_file_step t fs file_path sid2 mt descr strat).2.config = self.config ∧
        (self.upload_file_step t fs file_path sid2 mt descr strat).2 = self) ∧
      ((self.upload_text_step t text sid2 descr strat).2.config = self.config ∧
        (self.upload_text_step t text sid2 descr strat).2 = self) := by
  intro self t m sys q sid2 text file_path temp lk sid rth ru rk rthr rk2 fs mt descr strat
  exact ⟨⟨rfl, rfl⟩, ⟨rfl, rfl⟩, ⟨rfl, rfl⟩, ⟨rfl, rfl⟩, ⟨rfl, rfl⟩⟩

set_option maxHeartbeats 1600000 in
/-- C10: a key appears in the body transmitted by `generate` exactly when
the final argument bound to it is non-null: falsy non-null values are
transmitted (with all defaults, `rag_usage` is sent as `false`, not
omitted), and passing null explicitly for the defaulted `session_id` omits
that key entirely. -/
theorem C10_generate_omission_iff_nonnull :
    (∀ (self : LLMProxy) (t : Transport) (m sys q : String)
       (temp : Option ℚ) (lk : Option Int) (sid : Option String)
       (rth : Option ℚ) (ru : Option Bool) (rk : Option Int),
      (("temperature" ∈ (self.generate t m sys q temp lk sid rth ru rk).sentBody.map Prod.fst)
          ↔ temp ≠ none) ∧
      (("lastk" ∈ (self.generate t m sys q temp lk sid rth ru rk).sentBody.map Prod.fst)
          ↔ lk ≠ none) ∧
      (("session_id" ∈ (self.generate t m sys q temp lk sid rth ru rk).sentBody.map Prod.fst)
          ↔ sid ≠ none) ∧
      (("rag_threshold" ∈ (self.generate t m sys q temp lk sid rth ru rk).sentBody.map Prod.fst)
          ↔ rth ≠ none) ∧
      (("rag_usage" ∈ (self.generate t m sys q temp lk sid rth ru rk).sentBody.map Prod.fst)
          ↔ ru ≠ none) ∧
      (("rag_k" ∈ (self.generate t m sys q temp lk sid rth ru rk).sentBody.map Prod.fst)
          ↔ rk ≠ none)) ∧
    (∀ (self : LLMProxy) (t : Transport) (m sys q : String),
      List.lookup "rag_usage"
        (self.generate t m sys q generateDefault_temperature generateDefault_lastk
          generateDefault_session_id generateDefault_rag_threshold
          generateDefault_rag_usage generateDefault_rag_k).sentBody
        = some (.bool false)) ∧
    (∀ (self : LLMProxy) (t : Transport) (m sys q : String),
      "session_id" ∉
        (self.generate t m sys q generateDefault_temperature generateDefault_lastk
          none generateDefault_rag_threshold generateDefault_rag_usage
          generateDefault_rag_k).sentBody.map Prod.fst) := by
  refine ⟨?_, ?_, ?_⟩
  · intro self t m sys q temp lk sid rth ru rk
    have hbody : (self.generate t m sys q temp lk sid rth ru rk).sentBody
        = (generatePayload m sys q temp lk sid rth ru rk).filterMap
            (fun kv => kv.2.map (fun v => (kv.1, v))) := by
      show (generateEpilogue (self.post_json t "call" _)).sentBody = _
      rw [generateEpilogue_sentBody, post_json_sentBody]
    rw [hbody]
    cases temp <;> cases lk <;> cases sid <;> cases rth <;> cases ru <;> cases rk <;>
      simp [generatePayload]
  · intro self t m sys q
    show List.lookup "rag_usage" (generateEpilogue (self.post_json t "call" _)).sentBody = _
    rw [generateEpilogue_sentBody, post_json_sentBody]
    rfl
  · intro self t m sys q
    show "session_id" ∉ (generateEpilogue (self.post_json t "call" _)).sentBody.map Prod.fst
    rw [generateEpilogue_sentBody, post_json_sentBody]
    simp [generatePayload, generateDefault_temperature, generateDefault_lastk,
      generateDefault_rag_threshold, generateDefault_rag_usage, generateDefault_rag_k]
